import Mathlib

/-!
Shallow embedding of the generation orchestration core of the
AI TTS-and-image generator (src/App.tsx, src/types.ts).

The React component state of `App` (src/App.tsx lines 6-27) is modelled as
an explicit record `AppState`; the `handleGenerate` event handler
(lines 49-138) becomes a function from the two external client outcomes and
the current state to the new state, together with the trace of external
client calls made and the list of `GenerationState` values stored via
`setGenerationState` during the run.  The two external clients
(`generateNarration`, `generateImage` from the services module) are oracles:
their outcome is a parameter, either a resource handle (`Except.ok`) or a
thrown JavaScript value (`Except.error`).
-/

namespace TTSImage

/-- `GenerationMode` (src/types.ts line 8): `'both' | 'image' | 'narration'`. -/
inductive GenerationMode where
  | both
  | image
  | narration
deriving DecidableEq, BEq

/-- The `stage` field of `GenerationState` (src/types.ts line 12). -/
inductive Stage where
  | idle
  | generatingAudio
  | generatingVisuals
  | complete
  | error
deriving DecidableEq, BEq

/-- `GenerationState` (src/types.ts lines 10-15).  `error : string | null`
becomes `Option String`. -/
structure GenerationState where
  isGenerating : Bool
  stage : Stage
  error : Option String
  progressMessage : String
deriving DecidableEq

/-- `GeneratedContent` (src/types.ts lines 17-23). -/
structure GeneratedContent where
  audioUrl : Option String
  imageUrl : Option String
  narrationText : String
  visualPrompt : String
  mode : GenerationMode
deriving DecidableEq

/-- The component state of `App` (src/App.tsx lines 7-23).  `speakingRate` is a
JavaScript number only ever passed through to the narration client; it is
modelled as a rational. -/
structure AppState where
  apiKey : String
  showKeyInput : Bool
  narrationInput : String
  visualPromptInput : String
  speakingRate : Rat
  selectedVoice : String
  generationMode : GenerationMode
  generationState : GenerationState
  result : Option GeneratedContent
  isPlaying : Bool
deriving DecidableEq

/-- The initial `generationState` (src/App.tsx lines 15-20), also the state
stored by `reset` (lines 161-166). -/
def initialGenerationState : GenerationState :=
  { isGenerating := false, stage := .idle, error := none, progressMessage := "" }

/-- A JavaScript value thrown by an external client: `isError` records whether
it is an `Error` instance (src/App.tsx line 127), `message` its message. -/
structure Thrown where
  isError : Bool
  message : String
deriving DecidableEq

/-- The message computed by the catch block (src/App.tsx lines 126-129). -/
def errorMessageOf (t : Thrown) : String :=
  if t.isError then t.message else "An unexpected error occurred."

/-- The `GenerationState` stored by the catch block (src/App.tsx
lines 131-136). -/
def failState (t : Thrown) : GenerationState :=
  { isGenerating := false, stage := .error, error := some (errorMessageOf t),
    progressMessage := "" }

/-- The `GenerationState` stored on completion (src/App.tsx lines 117-122). -/
def completeState : GenerationState :=
  { isGenerating := false, stage := .complete, error := none,
    progressMessage := "Generation Complete!" }

/-- An external client call, for the call trace. -/
inductive Call where
  | narration
  | image
deriving DecidableEq, BEq

/-- `needsNarration` (src/App.tsx line 56):
`generationMode === 'both' || generationMode === 'narration'`. -/
def needsNarration (m : GenerationMode) : Bool :=
  m == .both || m == .narration

/-- `needsImage` (src/App.tsx line 57):
`generationMode === 'both' || generationMode === 'image'`. -/
def needsImage (m : GenerationMode) : Bool :=
  m == .both || m == .image

/-- The JavaScript emptiness test `!text.trim()` (src/App.tsx lines 59, 69):
true exactly when the string is empty or consists of whitespace only, i.e.
when every character is whitespace. -/
def isBlank (s : String) : Bool :=
  s.data.all Char.isWhitespace

/-- The validation error kinds of the two inline input checks
(src/App.tsx lines 59-77). -/
inductive ValidationError where
  | emptyNarration
  | emptyVisualPrompt
deriving DecidableEq

/-- The validation performed by `handleGenerate` before any client call
(src/App.tsx lines 59-77): the narration check (line 59) runs first, the
visual-prompt check (line 69) second. -/
def validate (m : GenerationMode) (narrationText visualPromptText : String) :
    Option ValidationError :=
  if needsNarration m && isBlank narrationText then some .emptyNarration
  else if needsImage m && isBlank visualPromptText then some .emptyVisualPrompt
  else none

/-- The `GenerationState` stored on a failed narration validation
(src/App.tsx lines 60-65). -/
def emptyNarrationState : GenerationState :=
  { isGenerating := false, stage := .error,
    error := some "Please provide narration text.", progressMessage := "" }

/-- The `GenerationState` stored on a failed visual-prompt validation
(src/App.tsx lines 70-75). -/
def emptyVisualPromptState : GenerationState :=
  { isGenerating := false, stage := .error,
    error := some "Please provide a visual description.", progressMessage := "" }

/-- `handleGenerate` (src/App.tsx lines 49-138).  `narr` and `img` are the
outcomes the two external clients would return if invoked.  The result is the
new component state, the trace of client calls actually made (in order), and
the `GenerationState` values stored via `setGenerationState` (in order). -/
def handleGenerate (narr img : Except Thrown String) (s : AppState) :
    AppState × List Call × List GenerationState :=
  -- lines 51-54: no API key → show the key prompt and return
  if s.apiKey == "" then
    ({ s with showKeyInput := true }, [], [])
  else
  let nN := needsNarration s.generationMode
  let nI := needsImage s.generationMode
  -- lines 59-67
  if nN && isBlank s.narrationInput then
    ({ s with generationState := emptyNarrationState }, [], [emptyNarrationState])
  -- lines 69-77
  else if nI && isBlank s.visualPromptInput then
    ({ s with generationState := emptyVisualPromptState }, [],
      [emptyVisualPromptState])
  else
  -- lines 79-84
  let g1 : GenerationState :=
    { isGenerating := true,
      stage := if nN then .generatingAudio else .generatingVisuals,
      error := none,
      progressMessage :=
        if nN then "Generating Voiceover (TTS)..." else "Generating Visuals..." }
  if nN then
    -- line 92: await generateNarration(...)
    match narr with
    | .error t =>
        -- catch block, lines 124-137; the image client is never reached
        ({ s with generationState := failState t }, [.narration],
          [g1, failState t])
    | .ok audioHandle =>
        if nI then
          -- lines 94-100: functional update of the previous state
          let g2 : GenerationState :=
            { g1 with stage := .generatingVisuals,
                      progressMessage := "Generating 16:9 Visuals with Gemini Flash..." }
          -- line 105: await generateImage(...)
          match img with
          | .error t =>
              ({ s with generationState := failState t }, [.narration, .image],
                [g1, g2, failState t])
          | .ok imageHandle =>
              -- lines 109-122
              let r : GeneratedContent :=
                { audioUrl := some audioHandle, imageUrl := some imageHandle,
                  narrationText := s.narrationInput,
                  visualPrompt := s.visualPromptInput,
                  mode := s.generationMode }
              ({ s with result := some r, generationState := completeState },
                [.narration, .image], [g1, g2, completeState])
        else
          let r : GeneratedContent :=
            { audioUrl := some audioHandle, imageUrl := none,
              narrationText := s.narrationInput,
              visualPrompt := s.visualPromptInput,
              mode := s.generationMode }
          ({ s with result := some r, generationState := completeState },
            [.narration], [g1, completeState])
  else
    if nI then
      match img with
      | .error t =>
          ({ s with generationState := failState t }, [.image], [g1, failState t])
      | .ok imageHandle =>
          let r : GeneratedContent :=
            { audioUrl := none, imageUrl := some imageHandle,
              narrationText := s.narrationInput,
              visualPrompt := s.visualPromptInput,
              mode := s.generationMode }
          ({ s with result := some r, generationState := completeState },
            [.image], [g1, completeState])
    else
      -- unreachable for the three modes; kept faithful to the source fallthrough
      let r : GeneratedContent :=
        { audioUrl := none, imageUrl := none,
          narrationText := s.narrationInput,
          visualPrompt := s.visualPromptInput,
          mode := s.generationMode }
      ({ s with result := some r, generationState := completeState },
        [], [g1, completeState])

/-- A click on the Generate button (src/App.tsx lines 359-362): the button is
disabled while `generationState.isGenerating` holds, so a click during an
active run changes nothing; otherwise it runs `handleGenerate`. -/
def clickGenerate (narr img : Except Thrown String) (s : AppState) :
    AppState × List Call × List GenerationState :=
  if s.generationState.isGenerating then (s, [], [])
  else handleGenerate narr img s

/-- `reset` (src/App.tsx lines 159-169). -/
def reset (s : AppState) : AppState :=
  { s with result := none, generationState := initialGenerationState,
           narrationInput := "", visualPromptInput := "" }

/-- The two `GenerationState` invariants: `error` is non-null exactly in the
`error` stage, and `isGenerating` holds exactly in the two generating
stages. -/
def goodState (g : GenerationState) : Bool :=
  (g.error.isSome == (g.stage == .error)) &&
  (g.isGenerating == (g.stage == .generatingAudio || g.stage == .generatingVisuals))

/-- A concrete well-formed component state used to instantiate theorems. -/
def testState : AppState :=
  { apiKey := "key1", showKeyInput := false, narrationInput := "a fact",
    visualPromptInput := "an octopus", speakingRate := 1,
    selectedVoice := "Kore", generationMode := .both,
    generationState := initialGenerationState, result := none,
    isPlaying := false }

/-!  Theorems for the claims. -/

/-- C2: the derived job set is exactly: Both → (narrationRequired = true,
imageRequired = true), NarrationOnly → (true, false), ImageOnly →
(false, true); no mode activates any other job. -/
theorem jobSet_table :
    needsNarration .both = true ∧ needsImage .both = true ∧
    needsNarration .narration = true ∧ needsImage .narration = false ∧
    needsNarration .image = false ∧ needsImage .image = true := by
  decide

/-- C8: `reset`, from any state whatsoever (Complete, Error, or any
in-progress state), returns the system to Idle with no residual artifact, no
error, no progress message, and cleared input texts. -/
theorem reset_returns_to_idle (s : AppState) :
    (reset s).generationState.stage = .idle ∧
    (reset s).generationState.error = none ∧
    (reset s).generationState.progressMessage = "" ∧
    (reset s).generationState.isGenerating = false ∧
    (reset s).result = none ∧
    (reset s).narrationInput = "" ∧
    (reset s).visualPromptInput = "" := by
  simp [reset, initialGenerationState]

/-- C3: with no credential available, the run moves to the credential-required
condition — the key prompt is shown, which is distinguishable from the generic
Error state because the generation state (hence its stage and error field) is
left untouched — and neither client is invoked. -/
theorem missing_credential_prompts_and_calls_nothing
    (narr img : Except Thrown String) (s : AppState) (hk : s.apiKey = "") :
    (handleGenerate narr img s).2.1 = [] ∧
    (handleGenerate narr img s).1.showKeyInput = true ∧
    (handleGenerate narr img s).1.generationState = s.generationState := by
  simp [handleGenerate, hk]

/-- Witness for C3 at a concrete state with an empty key. -/
theorem missing_credential_prompts_and_calls_nothing_w :
    (handleGenerate (.ok "a") (.ok "b") { testState with apiKey := "" }).2.1 = [] ∧
    (handleGenerate (.ok "a") (.ok "b") { testState with apiKey := "" }).1.showKeyInput = true ∧
    (handleGenerate (.ok "a") (.ok "b") { testState with apiKey := "" }).1.generationState =
      { testState with apiKey := "" }.generationState :=
  missing_credential_prompts_and_calls_nothing (.ok "a") (.ok "b")
    { testState with apiKey := "" } rfl

/-- C1: in a Both-mode run that reaches the clients (credential present,
validation passed), if the narration call fails, the image client is never
invoked, no artifact is produced, the run ends in the Error stage, and the
error message is the thrown value's message when it is an Error instance,
otherwise the generic fallback message. -/
theorem narration_failure_stops_run (narr img : Except Thrown String)
    (s : AppState) (t : Thrown)
    (hm : s.generationMode = .both) (hk : s.apiKey ≠ "")
    (hn : isBlank s.narrationInput = false)
    (hv : isBlank s.visualPromptInput = false)
    (hnarr : narr = .error t) :
    (handleGenerate narr img s).2.1 = [.narration] ∧
    (handleGenerate narr img s).1.result = s.result ∧
    (handleGenerate narr img s).1.generationState.stage = .error ∧
    (handleGenerate narr img s).1.generationState.error =
      some (if t.isError then t.message else "An unexpected error occurred.") := by
  subst hnarr
  simp +decide [handleGenerate, needsNarration, needsImage, hm, hk, hn, hv,
    failState, errorMessageOf]

/-- Witness for C1: a concrete Both-mode run whose narration client throws. -/
theorem narration_failure_stops_run_w :
    (handleGenerate (.error ⟨true, "boom"⟩) (.ok "img") testState).2.1 = [.narration] ∧
    (handleGenerate (.error ⟨true, "boom"⟩) (.ok "img") testState).1.result = testState.result ∧
    (handleGenerate (.error ⟨true, "boom"⟩) (.ok "img") testState).1.generationState.stage = .error ∧
    (handleGenerate (.error ⟨true, "boom"⟩) (.ok "img") testState).1.generationState.error =
      some (if (true : Bool) then "boom" else "An unexpected error occurred.") :=
  narration_failure_stops_run (.error ⟨true, "boom"⟩) (.ok "img") testState
    ⟨true, "boom"⟩ rfl (by decide) (by decide) (by decide) rfl

/-- C6: whenever both jobs are required and the image client is invoked at
all, the call trace is exactly narration first, then image, and the narration
call returned successfully — the image call never begins before the narration
call has returned. -/
theorem narration_precedes_image (narr img : Except Thrown String)
    (s : AppState)
    (hn : needsNarration s.generationMode = true)
    (hi : needsImage s.generationMode = true)
    (hmem : ((handleGenerate narr img s).2.1).contains .image = true) :
    (handleGenerate narr img s).2.1 = [.narration, .image] ∧
    ∃ u, narr = .ok u := by
  revert hmem
  unfold handleGenerate
  simp only [hn, hi]
  split
  · simp
  · split
    · simp
    · split
      · simp
      · cases narr with
        | error t => simp +decide
        | ok u =>
          cases img with
          | error t => simp +decide
          | ok v => simp +decide

/-- Witness for C6: a concrete Both-mode run where both clients succeed. -/
theorem narration_precedes_image_w :
    (handleGenerate (.ok "au") (.ok "im") testState).2.1 = [.narration, .image] ∧
    ∃ u, (Except.ok "au" : Except Thrown String) = .ok u :=
  narration_precedes_image (.ok "au") (.ok "im") testState (by decide)
    (by decide) (by decide)

/-- C7: clicking Generate while a run is active (the stage is one of the two
generating stages, and the stored state satisfies the `GenerationState`
invariants, so the button is disabled) changes nothing: the pre-existing
state is returned unchanged, no client is called, no state is stored. -/
theorem start_rejected_while_active (narr img : Except Thrown String)
    (s : AppState)
    (hstage : s.generationState.stage = .generatingAudio ∨
      s.generationState.stage = .generatingVisuals)
    (hgood : goodState s.generationState = true) :
    clickGenerate narr img s = (s, [], []) := by
  have hg : s.generationState.isGenerating = true := by
    rcases hstage with h | h <;> simp +decide [goodState, h] at hgood <;>
      exact hgood.2
  simp [clickGenerate, hg]

/-- Witness for C7 at a concrete mid-run state. -/
theorem start_rejected_while_active_w :
    clickGenerate (.ok "a") (.ok "b")
      { testState with generationState :=
          { isGenerating := true, stage := .generatingAudio, error := none,
            progressMessage := "Generating Voiceover (TTS)..." } } =
      ({ testState with generationState :=
          { isGenerating := true, stage := .generatingAudio, error := none,
            progressMessage := "Generating Voiceover (TTS)..." } }, [], []) :=
  start_rejected_while_active (.ok "a") (.ok "b") _ (Or.inl rfl) (by decide)

/-- C9: an ImageOnly run that reaches the clients and whose image call
succeeds produces the artifact with `audioUrl = null`, `imageUrl` the handle
returned by the image client, the mode, and the two input texts echoed
unchanged; the run ends in the Complete stage. -/
theorem imageOnly_roundtrip (narr img : Except Thrown String) (s : AppState)
    (u : String)
    (hm : s.generationMode = .image) (hk : s.apiKey ≠ "")
    (hv : isBlank s.visualPromptInput = false)
    (himg : img = .ok u) :
    (handleGenerate narr img s).1.result =
      some { audioUrl := none, imageUrl := some u,
             narrationText := s.narrationInput,
             visualPrompt := s.visualPromptInput, mode := .image } ∧
    (handleGenerate narr img s).1.generationState.stage = .complete := by
  subst himg
  simp +decide [handleGenerate, needsNarration, needsImage, hm, hk, hv,
    completeState]

/-- Witness for C9 at a concrete ImageOnly state. -/
theorem imageOnly_roundtrip_w :
    (handleGenerate (.ok "au") (.ok "im")
        { testState with generationMode := .image }).1.result =
      some { audioUrl := none, imageUrl := some "im",
             narrationText := { testState with generationMode := .image }.narrationInput,
             visualPrompt := { testState with generationMode := .image }.visualPromptInput,
             mode := .image } ∧
    (handleGenerate (.ok "au") (.ok "im")
        { testState with generationMode := .image }).1.generationState.stage = .complete :=
  imageOnly_roundtrip (.ok "au") (.ok "im") _ "im" rfl (by decide) (by decide) rfl

/-- C10: every `GenerationState` the program stores satisfies the two
invariants — `error` non-null iff the stage is `error`, `isGenerating` iff
the stage is a generating stage: the initial state, every state stored
during any `handleGenerate` run, and the state stored by `reset`. -/
theorem stored_states_satisfy_invariants (narr img : Except Thrown String)
    (s : AppState) :
    goodState initialGenerationState = true ∧
    ((handleGenerate narr img s).2.2.all goodState) = true ∧
    goodState (reset s).generationState = true := by
  refine ⟨by decide, ?_, by rfl⟩
  cases narr <;> cases img <;> cases hm : s.generationMode <;>
    simp +decide [handleGenerate, hm, needsNarration, needsImage, goodState,
      emptyNarrationState, emptyVisualPromptState, failState, completeState] <;>
    split_ifs <;>
    simp +decide [goodState]

/-- C4 counterexample: with mode Both and both inputs empty, image is
required and the visual prompt is blank, yet validation fails with
EmptyNarration, not EmptyVisualPrompt — so "fails with EmptyVisualPrompt
exactly when image is required and the visual prompt is empty or
whitespace-only" is false as stated. -/
theorem validation_priority_cex :
    needsImage .both = true ∧ isBlank "" = true ∧
    validate .both "" "" = some .emptyNarration ∧
    validate .both "" "" ≠ some .emptyVisualPrompt := by
  decide

/-- C4 (amended): validation fails with EmptyNarration exactly when narration
is required and its text is blank; it fails with EmptyVisualPrompt exactly
when image is required, the visual prompt is blank, and the narration check
did not already fail (the narration check runs first); and whenever
validation fails, `handleGenerate` makes no client call and ends in the
Error stage. -/
theorem validation_exact_and_blocks_calls (m : GenerationMode)
    (a b : String) (narr img : Except Thrown String) (s : AppState)
    (hk : s.apiKey ≠ "") :
    (validate m a b = some .emptyNarration ↔
      (needsNarration m = true ∧ isBlank a = true)) ∧
    (validate m a b = some .emptyVisualPrompt ↔
      (needsImage m = true ∧ isBlank b = true ∧
        ¬(needsNarration m = true ∧ isBlank a = true))) ∧
    (validate s.generationMode s.narrationInput s.visualPromptInput ≠ none →
      (handleGenerate narr img s).2.1 = [] ∧
      (handleGenerate narr img s).1.generationState.stage = .error) := by
  refine ⟨?_, ?_, ?_⟩
  · cases m <;> by_cases ha : isBlank a <;> by_cases hb : isBlank b <;>
      simp +decide [validate, needsNarration, needsImage, ha, hb]
  · cases m <;> by_cases ha : isBlank a <;> by_cases hb : isBlank b <;>
      simp +decide [validate, needsNarration, needsImage, ha, hb]
  · intro hfail
    by_cases h1 : (needsNarration s.generationMode &&
        isBlank s.narrationInput) = true
    · simp [handleGenerate, hk, h1, emptyNarrationState]
    · by_cases h2 : (needsImage s.generationMode &&
          isBlank s.visualPromptInput) = true
      · simp [handleGenerate, hk, h1, h2, emptyVisualPromptState]
      · exact absurd (by simp [validate, h1, h2]) hfail

/-- Witness for the amended C4 at a NarrationOnly state with empty narration
text. -/
theorem validation_exact_and_blocks_calls_w :
    ((validate .narration "" "x" = some .emptyNarration ↔
        (needsNarration .narration = true ∧ isBlank "" = true)) ∧
      (validate .narration "" "x" = some .emptyVisualPrompt ↔
        (needsImage .narration = true ∧ isBlank "x" = true ∧
          ¬(needsNarration .narration = true ∧ isBlank "" = true)))) ∧
    ((handleGenerate (.ok "a") (.ok "b")
        { testState with generationMode := .narration,
                         narrationInput := "" }).2.1 = [] ∧
      (handleGenerate (.ok "a") (.ok "b")
        { testState with generationMode := .narration,
                         narrationInput := "" }).1.generationState.stage = .error) := by
  have h := validation_exact_and_blocks_calls .narration "" "x" (.ok "a")
    (.ok "b") { testState with generationMode := .narration, narrationInput := "" }
    (by decide)
  exact ⟨⟨h.1, h.2.1⟩, h.2.2 (by decide)⟩

/-- C5 counterexample: a start with no credential, mode NarrationOnly and an
empty (hence invalid) narration text does not end in the validation Error —
it shows the credential prompt and leaves the generation state untouched, so
the credential gate runs before validation, not after. -/
theorem credential_before_validation_cex :
    needsNarration GenerationMode.narration = true ∧ isBlank "" = true ∧
    (handleGenerate (.ok "a") (.ok "b")
      { testState with apiKey := "", generationMode := .narration,
                       narrationInput := "" }).1.generationState.error = none ∧
    (handleGenerate (.ok "a") (.ok "b")
      { testState with apiKey := "", generationMode := .narration,
                       narrationInput := "" }).1.generationState.stage = .idle ∧
    (handleGenerate (.ok "a") (.ok "b")
      { testState with apiKey := "", generationMode := .narration,
                       narrationInput := "" }).1.showKeyInput = true := by
  decide

/-- C5 (amended): start consults the Credential Gate first, and only with a
credential present does it perform buildJobSet and validation; hence for any
input that both fails validation and lacks a credential, the outcome is the
credential-required condition (the key prompt, generation state untouched,
nothing stored), never the validation Error, and no client is called. -/
theorem credential_gate_consulted_first (narr img : Except Thrown String)
    (s : AppState) (hk : s.apiKey = "")
    (_hfail : validate s.generationMode s.narrationInput s.visualPromptInput ≠ none) :
    (handleGenerate narr img s).1.showKeyInput = true ∧
    (handleGenerate narr img s).1.generationState = s.generationState ∧
    (handleGenerate narr img s).2.1 = [] ∧
    (handleGenerate narr img s).2.2 = [] := by
  simp [handleGenerate, hk]

/-- Witness for the amended C5 at a keyless state with an invalid input. -/
theorem credential_gate_consulted_first_w :
    (handleGenerate (.ok "a") (.ok "b")
      { testState with apiKey := "", generationMode := .narration,
                       narrationInput := "" }).1.showKeyInput = true ∧
    (handleGenerate (.ok "a") (.ok "b")
      { testState with apiKey := "", generationMode := .narration,
                       narrationInput := "" }).1.generationState =
      { testState with apiKey := "", generationMode := .narration,
                       narrationInput := "" }.generationState ∧
    (handleGenerate (.ok "a") (.ok "b")
      { testState with apiKey := "", generationMode := .narration,
                       narrationInput := "" }).2.1 = [] ∧
    (handleGenerate (.ok "a") (.ok "b")
      { testState with apiKey := "", generationMode := .narration,
                       narrationInput := "" }).2.2 = [] :=
  credential_gate_consulted_first (.ok "a") (.ok "b")
    { testState with apiKey := "", generationMode := .narration,
                     narrationInput := "" } rfl (by decide)

end TTSImage
